import Mathlib

/-!
Shallow embedding of the canaryweather station-resolution and
weather-interpolation engine.

Numbers produced by the program's arithmetic are modelled as exact
rationals; `Math.round` is modelled as `jsRound` below.  Network effects
are modelled by passing the per-station responses in as parameters, and
the haversine great-circle distance for the fixed query point is passed
in as a function `hav` from a station's coordinates to its distance in
kilometres; every claim treated here concerns only how the computed
distances and fetched values are consumed, never the trigonometry
itself.
-/

namespace CanaryWeather

/-- JavaScript Math.round: rounds to the nearest integer, halves towards
positive infinity, i.e. the floor of x + 1/2. -/
def jsRound (q : ℚ) : ℤ := ⌊q + 1/2⌋

/-- Math.round (x * 100) / 100, rounding to two decimals, as used for the
distances and weights the service reports. -/
def round2 (q : ℚ) : ℚ := (jsRound (q * 100) : ℚ) / 100

/-- Math.round (x * 10) / 10, rounding to one decimal, as used by
findNearestStations and the batch interpolator. -/
def round1 (q : ℚ) : ℚ := (jsRound (q * 10) : ℚ) / 10

/-- Station record, from the StationMapping interface: one entry of the
stations object of locations_mapping.json. -/
structure StationMapping where
  name : String
  island : String
  municipality : String
  latitude : ℚ
  longitude : ℚ
  altitude : ℚ
  isNorthern : Bool
  isHighAltitude : Bool
  aliases : List String
deriving Repr, DecidableEq

instance : Inhabited StationMapping :=
  ⟨⟨"", "", "", 0, 0, 0, false, false, []⟩⟩

/-- A station catalog: Object.entries of the stations object, in
insertion order, pairing each station id with its record. -/
abbrev Catalog := List (String × StationMapping)

/-- Distance from the query point to a catalog entry: the source computes
haversineDistance lat lon station.latitude station.longitude, which we
abstract as a function hav of the station's coordinates. -/
def stationDist (hav : ℚ → ℚ → ℚ) (e : String × StationMapping) : ℚ :=
  hav e.2.latitude e.2.longitude

/-- One tracked candidate of findNearestStation's linear scan: a station
id together with its distance from the query point. -/
structure Tracked where
  id : String
  distance : ℚ
deriving Repr, DecidableEq

/-- One update of findNearestStation's scan for one altitude class:
replace the tracked candidate when the new entry is strictly closer (so
the first entry attaining the minimum distance is kept). -/
def trackStep (hav : ℚ → ℚ → ℚ) (a : Option Tracked) (e : String × StationMapping) :
    Option Tracked :=
  match a with
  | none => some ⟨e.1, stationDist hav e⟩
  | some t => if stationDist hav e < t.distance then some ⟨e.1, stationDist hav e⟩ else a

/-- Fold of trackStep over a list of entries of one altitude class. -/
def track1 (hav : ℚ → ℚ → ℚ) (l : Catalog) (acc : Option Tracked) : Option Tracked :=
  l.foldl (trackStep hav) acc

/-- The linear scan of findNearestStation: separately track the nearest
high-altitude and the nearest regular station. -/
def trackNearest (hav : ℚ → ℚ → ℚ) (stations : Catalog) :
    Option Tracked × Option Tracked :=
  stations.foldl
    (fun acc e =>
      if e.2.isHighAltitude then (trackStep hav acc.1 e, acc.2)
      else (acc.1, trackStep hav acc.2 e))
    (none, none)

/-- Source constant HIGH_ALT_FALLBACK_RATIO = 3. -/
def highAltFallbackFactor : ℚ := 3

/-- Source constant REGULAR_STATION_MAX_KM = 40. -/
def REGULAR_STATION_MAX_KM : ℚ := 40

/-- Lookup stations[id] on the catalog, as the source's record indexing. -/
def lookupStation (stations : Catalog) (id : String) : StationMapping :=
  ((stations.find? (fun e => e.1 == id)).map (fun e => e.2)).getD default

/-- Result object of findNearestStation; the source leaves the
isHighAltitudeFallback field absent except on the fallback path, which we
model as the field being false. -/
structure NearestStationResult where
  stationId : String
  distance : ℚ
  station : StationMapping
  isHighAltitudeFallback : Bool
deriving Repr, DecidableEq

/-- The fallback test of findNearestStation's forceHighAltitude branch:
nearestHighAltitude and nearestRegular both exist, the regular one is
within 40 km, and the high-altitude one is more than 3 times farther. -/
def shouldFallback (ha reg : Option Tracked) : Bool :=
  match ha, reg with
  | some h, some r =>
    decide (r.distance < REGULAR_STATION_MAX_KM) &&
      decide (h.distance > r.distance * highAltFallbackFactor)
  | _, _ => false

/-- findNearestStation from src/src/services/weatherService.ts: linear
scan tracking the nearest high-altitude and nearest regular station, then
the selection policy on forceHighAltitude / excludeHighAltitude. -/
def findNearestStation (hav : ℚ → ℚ → ℚ) (stations : Catalog)
    (excludeHighAltitude : Bool) (forceHighAltitude : Bool) :
    Option NearestStationResult :=
  let nearestHighAltitude := (trackNearest hav stations).1
  let nearestRegular := (trackNearest hav stations).2
  if forceHighAltitude then
    match nearestHighAltitude, shouldFallback nearestHighAltitude nearestRegular with
    | some ha, false =>
      some ⟨ha.id, round2 ha.distance, lookupStation stations ha.id, false⟩
    | _, _ =>
      match nearestRegular with
      | some reg =>
        some ⟨reg.id, round2 reg.distance, lookupStation stations reg.id, true⟩
      | none => none
  else
    match excludeHighAltitude, nearestRegular with
    | true, some reg =>
      some ⟨reg.id, round2 reg.distance, lookupStation stations reg.id, false⟩
    | _, _ =>
      let nearest :=
        match nearestRegular, nearestHighAltitude with
        | some r, some h => if r.distance < h.distance then some r else some h
        | some r, none => some r
        | none, some h => some h
        | none, none => none
      nearest.map (fun t => ⟨t.id, round2 t.distance, lookupStation stations t.id, false⟩)

/-- One step of the stable insertion sort below: place a after every
element b with le b a, before the first strictly greater element. -/
def insertSorted {α : Type} (le : α → α → Bool) (a : α) : List α → List α
  | [] => [a]
  | b :: l => if le b a then b :: insertSorted le a l else a :: b :: l

/-- Stable sort by a boolean comparison: the denotation of JavaScript's
Array.prototype.sort with a numeric comparator, which the language
specification requires to be a stable sort; elements comparing equal keep
their original relative order.  Implemented as insertion sort so that the
definition evaluates by structural recursion. -/
def stableSort {α : Type} (le : α → α → Bool) (l : List α) : List α :=
  l.foldl (fun acc x => insertSorted le x acc) []

/-- NearbyStation entry returned by findNearestStations; its distance is
rounded to one decimal by the source. -/
structure NearbyStation where
  stationId : String
  name : String
  island : String
  distance : ℚ
  latitude : ℚ
  longitude : ℚ
deriving Repr, DecidableEq

/-- findNearestStations: filter out high-altitude stations when asked,
attach one-decimal distances, sort ascending by distance (the source's
stable Array.prototype.sort with comparator a.distance - b.distance) and
keep the first count entries. -/
def findNearestStations (hav : ℚ → ℚ → ℚ) (stations : Catalog)
    (count : ℕ) (excludeHighAltitude : Bool) : List NearbyStation :=
  let withDistance :=
    (stations.filter (fun e => !excludeHighAltitude || !e.2.isHighAltitude)).map
      (fun e =>
        { stationId := e.1
          name := e.2.name
          island := e.2.island
          distance := round1 (stationDist hav e)
          latitude := e.2.latitude
          longitude := e.2.longitude : NearbyStation })
  (stableSort (fun a b => decide (a.distance ≤ b.distance)) withDistance).take count

-- ─── INTELLIGENT INTERPOLATION ──────────────────────────────────────────

/-- Source constant SINGLE_STATION_THRESHOLD_KM = 5. -/
def SINGLE_STATION_THRESHOLD_KM : ℚ := 5

/-- calculateDistanceWeights: inverse-square-distance weights with a 0.1
km floor, normalised by their sum. -/
def calculateDistanceWeights (distances : List ℚ) : List ℚ :=
  let inverseDistances := distances.map (fun d => 1 / (max d (1/10)) ^ 2)
  let s := inverseDistances.foldl (· + ·) 0
  inverseDistances.map (fun w => w / s)

/-- LiveWeatherData snapshot; numeric fields are integer-valued after the
source's Math.round but carried as rationals. -/
structure LiveWeatherData where
  temperature : ℚ
  humidity : ℚ
  windSpeed : ℚ
  weatherCode : ℤ
  condition : String
  conditionLabelKey : String
  timestamp : String
deriving Repr, DecidableEq

/-- Result of fetchLiveWeather: the snapshot plus whether it came from a
cache tier. -/
structure LiveWeatherResult where
  data : LiveWeatherData
  isFromCache : Bool
deriving Repr, DecidableEq

/-- One contributing station recorded in an interpolated result. -/
structure StationWeight where
  stationId : String
  name : String
  distance : ℚ
  weight : ℚ
deriving Repr, DecidableEq

/-- InterpolatedWeatherResult from fetchInterpolatedWeather. -/
structure InterpolatedWeatherResult where
  data : LiveWeatherData
  stations : List StationWeight
  isSingleStation : Bool
  isFromCache : Bool
deriving Repr, DecidableEq

/-- fetchInterpolatedWeather: single-station mode when the nearest
station's (one-decimal) distance is below the 5 km threshold, otherwise
an inverse-distance-weighted blend of the stations that returned data.
The network is abstracted by fetch, giving fetchLiveWeather's response
for each station id (none when every source and cache fails), and now
stands for new Date().toISOString() at blend time. -/
def fetchInterpolatedWeather (hav : ℚ → ℚ → ℚ) (stations : Catalog)
    (fetch : String → Option LiveWeatherResult) (now : String) :
    Option InterpolatedWeatherResult :=
  let nearestStations := findNearestStations hav stations 3 true
  match nearestStations with
  | [] => none
  | closestStation :: _ =>
    if closestStation.distance < SINGLE_STATION_THRESHOLD_KM then
      match fetch closestStation.stationId with
      | none => none
      | some result =>
        some
          { data := result.data
            stations := [⟨closestStation.stationId, closestStation.name,
                          closestStation.distance, 1⟩]
            isSingleStation := true
            isFromCache := result.isFromCache }
    else
      let validResults :=
        nearestStations.filterMap (fun st => (fetch st.stationId).map (fun r => (st, r)))
      match validResults with
      | [] => none
      | [single] =>
        some
          { data := single.2.data
            stations := [⟨single.1.stationId, single.1.name, single.1.distance, 1⟩]
            isSingleStation := true
            isFromCache := single.2.isFromCache }
      | closestResult :: _ :: _ =>
        let weights := calculateDistanceWeights (validResults.map (fun r => r.1.distance))
        let pairs := validResults.zip weights
        let temperature := (pairs.map (fun p => p.1.2.data.temperature * p.2)).foldl (· + ·) 0
        let humidity := (pairs.map (fun p => p.1.2.data.humidity * p.2)).foldl (· + ·) 0
        let windSpeed := (pairs.map (fun p => p.1.2.data.windSpeed * p.2)).foldl (· + ·) 0
        some
          { data :=
              { temperature := (jsRound temperature : ℚ)
                humidity := (jsRound humidity : ℚ)
                windSpeed := (jsRound windSpeed : ℚ)
                weatherCode := closestResult.2.data.weatherCode
                condition := closestResult.2.data.condition
                conditionLabelKey := closestResult.2.data.conditionLabelKey
                timestamp := now }
            stations := pairs.map (fun p =>
              ⟨p.1.1.stationId, p.1.1.name, p.1.1.distance, round2 p.2⟩)
            isSingleStation := false
            isFromCache := validResults.any (fun r => r.2.isFromCache) }

-- ─── SUN CHANCE CLIMATOLOGY ─────────────────────────────────────────────

/-- Confidence grade of a climatology result. -/
inductive Confidence where
  | high
  | medium
  | low
deriving Repr, DecidableEq

/-- One historical row as consumed by calculateSunChance: the source
derives month as new Date(row.date).getMonth() + 1 and day as
new Date(row.date).getDate(), and keeps nullable sol and precip. -/
structure SunRow where
  month : ℤ
  day : ℤ
  sol : Option ℚ
  precip : Option ℚ
deriving Repr, DecidableEq

/-- SunChanceResult returned by calculateSunChance. -/
structure SunChanceResult where
  sunny_days : ℤ
  total_days : ℤ
  sun_chance : ℤ
  confidence : Confidence
deriving Repr, DecidableEq

/-- The sunny-day test used when sun-hours data is present:
row.sol ≠ null, row.sol > minSunHours, and row.precip null or at most
maxPrecip. -/
def isSunnyRow (minSunHours maxPrecip : ℚ) (row : SunRow) : Bool :=
  match row.sol with
  | none => false
  | some s =>
    decide (s > minSunHours) &&
      (match row.precip with
       | none => true
       | some p => decide (p ≤ maxPrecip))

/-- The dry-day proxy test: row.precip null or at most maxPrecip. -/
def isDryRow (maxPrecip : ℚ) (row : SunRow) : Bool :=
  match row.precip with
  | none => true
  | some p => decide (p ≤ maxPrecip)

/-- The month/day-of-month filter applied client-side by
calculateSunChance. -/
def inDayRange (month dayStart dayEnd : ℤ) (row : SunRow) : Bool :=
  decide (row.month = month) && decide (dayStart ≤ row.day) && decide (row.day ≤ dayEnd)

/-- calculateSunChance after the historical-store query: data holds the
rows the store returned (the empty list also standing for a store error,
which the source maps to the same zero result), minSunHours, maxPrecip
and northernMultiplier are the sunChanceConfig constants of
locations_mapping.json, and isNorthern is the station's flag. -/
def calculateSunChance (minSunHours maxPrecip northernMultiplier : ℚ)
    (isNorthern : Bool) (data : List SunRow) (month dayStart dayEnd : ℤ) :
    SunChanceResult :=
  if data.isEmpty then ⟨0, 0, 0, .low⟩
  else
    let filteredData := data.filter (inDayRange month dayStart dayEnd)
    let totalDays : ℤ := filteredData.length
    let hasSolData := filteredData.any (fun row => row.sol.isSome)
    let sunnyDays : ℤ :=
      if hasSolData then
        (filteredData.filter (isSunnyRow minSunHours maxPrecip)).length
      else
        let dryDays : ℤ := (filteredData.filter (isDryRow maxPrecip)).length
        if isNorthern then jsRound ((dryDays : ℚ) * northernMultiplier) else dryDays
    let sunChance : ℤ :=
      if totalDays > 0 then jsRound (((sunnyDays : ℚ) / (totalDays : ℚ)) * 100) else 0
    let confidence : Confidence :=
      if totalDays ≥ 50 ∧ hasSolData then .high
      else if totalDays ≥ 20 then .medium
      else .low
    ⟨sunnyDays, totalDays, sunChance, confidence⟩

/-- One contributing station recorded in an interpolated sun-chance
result. -/
structure SunStationWeight where
  stationId : String
  name : String
  distance : ℚ
  weight : ℚ
  sunChance : ℤ
deriving Repr, DecidableEq

/-- InterpolatedSunChanceResult from calculateInterpolatedSunChance. -/
structure InterpolatedSunChanceResult where
  sun_chance : ℤ
  sunny_days : ℤ
  total_days : ℤ
  confidence : Confidence
  stations : List SunStationWeight
  isSingleStation : Bool
deriving Repr, DecidableEq

/-- calculateInterpolatedSunChance: single-station mode below the 5 km
threshold, otherwise a weighted blend of the stations with data.  The
store round trip is abstracted by sun, giving calculateSunChance's result
for each station id at the requested month/day window. -/
def calculateInterpolatedSunChance (hav : ℚ → ℚ → ℚ) (stations : Catalog)
    (sun : String → SunChanceResult) : Option InterpolatedSunChanceResult :=
  let nearestStations := findNearestStations hav stations 3 true
  match nearestStations with
  | [] => none
  | closestStation :: _ =>
    if closestStation.distance < SINGLE_STATION_THRESHOLD_KM then
      let result := sun closestStation.stationId
      some
        { sun_chance := result.sun_chance
          sunny_days := result.sunny_days
          total_days := result.total_days
          confidence := result.confidence
          stations := [⟨closestStation.stationId, closestStation.name,
                        closestStation.distance, 1, result.sun_chance⟩]
          isSingleStation := true }
    else
      let validResults :=
        (nearestStations.map (fun st => (st, sun st.stationId))).filter
          (fun p => decide (p.2.total_days > 0))
      match validResults with
      | [] => some ⟨0, 0, 0, .low, [], false⟩
      | [single] =>
        some
          { sun_chance := single.2.sun_chance
            sunny_days := single.2.sunny_days
            total_days := single.2.total_days
            confidence := single.2.confidence
            stations := [⟨single.1.stationId, single.1.name, single.1.distance, 1,
                          single.2.sun_chance⟩]
            isSingleStation := true }
      | _ :: _ :: _ =>
        let weights := calculateDistanceWeights (validResults.map (fun r => r.1.distance))
        let pairs := validResults.zip weights
        let interpolatedSunChance :=
          (pairs.map (fun p => (p.1.2.sun_chance : ℚ) * p.2)).foldl (· + ·) 0
        let totalSunnyDays : ℤ := (validResults.map (fun r => r.2.sunny_days)).foldl (· + ·) 0
        let totalDays : ℤ := (validResults.map (fun r => r.2.total_days)).foldl (· + ·) 0
        let n : ℤ := validResults.length
        let avgDaysPerStation : ℚ := (totalDays : ℚ) / (n : ℚ)
        let confidence : Confidence :=
          if avgDaysPerStation ≥ 50 ∧ validResults.length ≥ 2 then .high
          else if avgDaysPerStation ≥ 20 then .medium
          else .low
        some
          { sun_chance := jsRound interpolatedSunChance
            sunny_days := jsRound ((totalSunnyDays : ℚ) / (n : ℚ))
            total_days := jsRound ((totalDays : ℚ) / (n : ℚ))
            confidence := confidence
            stations := pairs.map (fun p =>
              ⟨p.1.1.stationId, p.1.1.name, p.1.1.distance, round2 p.2,
               p.1.2.sun_chance⟩)
            isSingleStation := false }

-- ─── OFFLINE CACHE ──────────────────────────────────────────────────────

/-- Source constant CACHE_EXPIRY_MS = 24 hours in milliseconds. -/
def CACHE_EXPIRY_MS : ℤ := 24 * 60 * 60 * 1000

/-- Cache key for a station: the source's string
weather_cache_ followed by the station id. -/
def cacheKey (stationId : String) : String := "weather_cache_" ++ stationId

/-- The JSON entry written to AsyncStorage by saveWeatherToCache. -/
structure CachedWeatherData where
  data : LiveWeatherData
  timestamp : ℤ
  stationId : String
deriving Repr, DecidableEq

/-- AsyncStorage modelled as a key-value map; the JSON round trip through
stringify and parse is value-preserving on this shape, so entries are
stored as values. -/
abbrev Store := String → Option CachedWeatherData

/-- AsyncStorage.setItem. -/
def storeSet (s : Store) (k : String) (v : CachedWeatherData) : Store :=
  fun k' => if k' = k then some v else s k'

/-- AsyncStorage.removeItem. -/
def storeRemove (s : Store) (k : String) : Store :=
  fun k' => if k' = k then none else s k'

/-- saveWeatherToCache at wall-clock time now (Date.now() in ms). -/
def saveWeatherToCache (now : ℤ) (s : Store) (stationId : String)
    (data : LiveWeatherData) : Store :=
  storeSet s (cacheKey stationId) ⟨data, now, stationId⟩

/-- getWeatherFromCache at wall-clock time now: returns the cached
snapshot and the store after the read.  The source's truthiness check on
the parsed entry rejects a zero timestamp and an empty station id; the
typeof validation of the data fields always passes in this typed model.
A stale entry (older than 24 hours) is removed and a miss returned. -/
def getWeatherFromCache (now : ℤ) (s : Store) (stationId : String) :
    Option LiveWeatherData × Store :=
  match s (cacheKey stationId) with
  | none => (none, s)
  | some cacheEntry =>
    if cacheEntry.timestamp = 0 ∨ cacheEntry.stationId = "" then (none, s)
    else if now - cacheEntry.timestamp > CACHE_EXPIRY_MS then
      (none, storeRemove s (cacheKey stationId))
    else (some cacheEntry.data, s)

-- ─── BEST WEEKS OF THE YEAR ─────────────────────────────────────────────

/-- Per-day-of-year aggregate built by getBestWeeksForStation: sunny is a
rational because a northern station's proxy branch adds the damping
multiplier instead of 1. -/
structure DayAgg where
  sunny : ℚ
  total : ℤ
  tmaxSum : ℚ
  tmaxCount : ℤ
deriving Repr, DecidableEq

/-- The week start days visited by getBestWeeksForStation's loop
for (startDay = 1; startDay <= 358; startDay += 7): 1, 8, ..., 358. -/
def weekStartDays : List ℕ := List.range' 1 52 7

/-- The days of the year aggregated for the window starting at startDay:
the inner loop for (d = startDay; d < startDay + 7 && d <= 365; d++). -/
def weekWindowDays (startDay : ℕ) : List ℕ :=
  (List.range' startDay 7).filter (fun d => decide (d ≤ 365))

/-- One scored window of getBestWeeksForStation. -/
structure WeeklyScore where
  start : ℕ
  sunChance : ℤ
  avgTmax : ℚ
  score : ℚ
deriving Repr, DecidableEq

/-- The per-window aggregation and scoring of getBestWeeksForStation,
given the per-day-of-year aggregates; windows with no data are skipped. -/
def weeklyData (dayOfYearData : ℕ → Option DayAgg) : List WeeklyScore :=
  weekStartDays.filterMap (fun startDay =>
    let agg :=
      (weekWindowDays startDay).foldl
        (fun acc d =>
          match dayOfYearData d with
          | none => acc
          | some dd => ⟨acc.sunny + dd.sunny, acc.total + dd.total,
                        acc.tmaxSum + dd.tmaxSum, acc.tmaxCount + dd.tmaxCount⟩)
        (⟨0, 0, 0, 0⟩ : DayAgg)
    if agg.total > 0 then
      let sunChance := jsRound ((agg.sunny / (agg.total : ℚ)) * 100)
      let avgTmax := if agg.tmaxCount > 0 then round1 (agg.tmaxSum / (agg.tmaxCount : ℚ)) else 0
      let score :=
        (sunChance : ℚ) * (3/2) +
          (if 24 ≤ avgTmax ∧ avgTmax ≤ 27 then 20
           else if 22 ≤ avgTmax ∧ avgTmax ≤ 29 then 10
           else if avgTmax < 20 ∨ avgTmax > 32 then -10
           else 0)
      some ⟨startDay, sunChance, avgTmax, score⟩
    else none)

/-- getBestWeeksForStation's ranking step: sort the scored windows by
descending score (stable) and keep the top 3; each returned window spans
weekStart = start through weekEnd = start + 6. -/
def topWeeks (dayOfYearData : ℕ → Option DayAgg) : List WeeklyScore :=
  (stableSort (fun a b => decide (b.score ≤ a.score)) (weeklyData dayOfYearData)).take 3

-- ─── HISTORICAL GAP INTERPOLATOR (batch-side) ───────────────────────────

/-- ProcessedWeatherData row of the batch fetcher; date carries
new Date(row.date).getTime(), the sort key. -/
structure ProcessedWeatherData where
  station_id : String
  date : ℤ
  tmax : Option ℚ
  tmin : Option ℚ
  tavg : Option ℚ
  precip : Option ℚ
  sol : Option ℚ
  is_interpolated : Bool
deriving Repr, DecidableEq

instance : Inhabited ProcessedWeatherData :=
  ⟨⟨"", 0, none, none, none, none, none, false⟩⟩

/-- The chronological sort at the head of interpolateMissingTemperatures
(stable, comparator on getTime of the date). -/
def sortByDate (data : List ProcessedWeatherData) : List ProcessedWeatherData :=
  stableSort (fun a b => decide (a.date ≤ b.date)) data

/-- Indexing the working array; out-of-range reads never occur on the
source's paths. -/
def recAt (l : List ProcessedWeatherData) (i : ℕ) : ProcessedWeatherData :=
  l.getD i default

/-- The backward scan for the nearest earlier index with non-null tavg:
the source's while loop decrementing prevIndex from i - 1. -/
def prevValidIndex (l : List ProcessedWeatherData) (i : ℕ) : Option ℕ :=
  ((List.range i).filter (fun j => (recAt l j).tavg.isSome)).getLast?

/-- The forward scan for the nearest later index with non-null tavg: the
source's while loop incrementing nextIndex from i + 1. -/
def nextValidIndex (l : List ProcessedWeatherData) (i : ℕ) : Option ℕ :=
  (List.range l.length).find? (fun j => decide (i < j) && (recAt l j).tavg.isSome)

/-- One iteration of interpolateMissingTemperatures' loop at index i,
updating the working array in place: interpolate between both neighbours
by index position, else copy the single neighbour, else synthesize the
midpoint of tmax and tmin, flagging every filled value. -/
def interpStep (l : List ProcessedWeatherData) (i : ℕ) : List ProcessedWeatherData :=
  let r := recAt l i
  if r.tavg.isSome then l
  else
    match prevValidIndex l i, nextValidIndex l i with
    | some p, some n =>
      let prevValue := (recAt l p).tavg.getD 0
      let nextValue := (recAt l n).tavg.getD 0
      let interpolatedValue :=
        prevValue + (nextValue - prevValue) * (((i : ℚ) - (p : ℚ)) / ((n : ℚ) - (p : ℚ)))
      l.set i { r with tavg := some (round1 interpolatedValue), is_interpolated := true }
    | some p, none =>
      l.set i { r with tavg := (recAt l p).tavg, is_interpolated := true }
    | none, some n =>
      l.set i { r with tavg := (recAt l n).tavg, is_interpolated := true }
    | none, none =>
      match r.tmax, r.tmin with
      | some tmax, some tmin =>
        l.set i { r with tavg := some (round1 ((tmax + tmin) / 2)), is_interpolated := true }
      | _, _ => l

/-- The working array after the loop has processed indices 0, ..., k-1. -/
def interpStateAt (s : List ProcessedWeatherData) (k : ℕ) : List ProcessedWeatherData :=
  (List.range k).foldl interpStep s

/-- interpolateMissingTemperatures from the batch fetcher: sort
chronologically, then fill each null tavg in index order. -/
def interpolateMissingTemperatures (data : List ProcessedWeatherData) :
    List ProcessedWeatherData :=
  interpStateAt (sortByDate data) (sortByDate data).length

/-- Modelled from the spec: the spec describes the gap fill as linear
interpolation "by calendar position"; this is that reading, interpolating
between the neighbour values proportionally to the date (getTime)
differences rather than to the index differences.  Used only to compare
the source's behaviour against the claim's wording. -/
def specDateInterp (prevValue nextValue : ℚ) (prevDate nextDate d : ℤ) : ℚ :=
  prevValue + (nextValue - prevValue) * (((d : ℚ) - (prevDate : ℚ)) / ((nextDate : ℚ) - (prevDate : ℚ)))

-- ═══════════════════════════════ THEOREMS ══════════════════════════════

lemma invWeight_pos (d : ℚ) : 0 < 1 / (max d (1/10)) ^ 2 := by
  have h1 : (0 : ℚ) < max d (1/10) := lt_of_lt_of_le (by norm_num) (le_max_right _ _)
  exact div_pos one_pos (pow_pos h1 2)

lemma sum_map_div (l : List ℚ) (S : ℚ) : (l.map (fun w => w / S)).sum = l.sum / S := by
  induction l with
  | nil => simp
  | cons a t ih => simp [ih, add_div]

unseal Rat.add Rat.mul Rat.inv in
lemma jsRound_zero : jsRound 0 = 0 := by decide

/-- C4: for every non-empty list of non-negative distances,
calculateDistanceWeights returns exactly the inverse-square weights
1 / max(d, 0.1)² divided by their total, these sum to 1, and every
returned weight is strictly positive. -/
theorem c4_weight_normalization (distances : List ℚ) (hne : distances ≠ [])
    (_hnn : ∀ d ∈ distances, 0 ≤ d) :
    calculateDistanceWeights distances =
      distances.map (fun d => (1 / (max d (1/10)) ^ 2) /
        (distances.map (fun d => 1 / (max d (1/10)) ^ 2)).sum) ∧
    (calculateDistanceWeights distances).sum = 1 ∧
    ∀ w ∈ calculateDistanceWeights distances, 0 < w := by
  have hpos : ∀ x ∈ distances.map (fun d => 1 / (max d (1/10)) ^ 2), 0 < x := by
    intro x hx
    rw [List.mem_map] at hx
    obtain ⟨d, _, rfl⟩ := hx
    exact invWeight_pos d
  have hinvne : distances.map (fun d => 1 / (max d (1/10)) ^ 2) ≠ [] := by
    simpa using hne
  have hsum : 0 < (distances.map (fun d => 1 / (max d (1/10)) ^ 2)).sum :=
    List.sum_pos _ hpos hinvne
  have hcdw : calculateDistanceWeights distances =
      (distances.map (fun d => 1 / (max d (1/10)) ^ 2)).map
        (fun w => w / (distances.map (fun d => 1 / (max d (1/10)) ^ 2)).sum) := by
    have h0 : calculateDistanceWeights distances =
        (distances.map (fun d => 1 / (max d (1/10)) ^ 2)).map
          (fun w => w / (distances.map (fun d => 1 / (max d (1/10)) ^ 2)).foldl (· + ·) 0) := rfl
    rw [h0, ← List.sum_eq_foldl]
  refine ⟨?_, ?_, ?_⟩
  · rw [hcdw, List.map_map]
    rfl
  · rw [hcdw, sum_map_div, div_self (ne_of_gt hsum)]
  · intro w hw
    rw [hcdw, List.mem_map] at hw
    obtain ⟨x, hx, rfl⟩ := hw
    exact div_pos (hpos x hx) hsum

/-- C4 witness: the weights for distances 6, 8, 12 km sum to 1 and are
each strictly positive. -/
theorem c4_weight_normalization_witness :
    (calculateDistanceWeights [6, 8, 12]).sum = 1 ∧
    ∀ w ∈ calculateDistanceWeights [6, 8, 12], 0 < w :=
  ⟨(c4_weight_normalization [6, 8, 12] (by simp) (by norm_num)).2.1,
   (c4_weight_normalization [6, 8, 12] (by simp) (by norm_num)).2.2⟩

lemma track1_cons (hav : ℚ → ℚ → ℚ) (e : String × StationMapping) (l : Catalog)
    (acc : Option Tracked) :
    track1 hav (e :: l) acc = track1 hav l (trackStep hav acc e) := rfl

lemma track1_some_spec (hav : ℚ → ℚ → ℚ) (l : Catalog) : ∀ t0 : Tracked,
    ∃ t, track1 hav l (some t0) = some t ∧ t.distance ≤ t0.distance ∧
      (t = t0 ∨ ∃ e ∈ l, t.id = e.1 ∧ t.distance = stationDist hav e) ∧
      ∀ e ∈ l, t.distance ≤ stationDist hav e := by
  induction l with
  | nil =>
    intro t0
    exact ⟨t0, rfl, le_refl _, Or.inl rfl, by simp⟩
  | cons e l ih =>
    intro t0
    rw [track1_cons]
    by_cases hd : stationDist hav e < t0.distance
    · have hstep : trackStep hav (some t0) e = some ⟨e.1, stationDist hav e⟩ := by
        simp [trackStep, hd]
      rw [hstep]
      obtain ⟨t, ht, hle, horig, hmin⟩ := ih ⟨e.1, stationDist hav e⟩
      refine ⟨t, ht, le_of_lt (lt_of_le_of_lt hle hd), ?_, ?_⟩
      · rcases horig with h | ⟨e', he', h1, h2⟩
        · exact Or.inr ⟨e, List.mem_cons_self e l, by rw [h], by rw [h]⟩
        · exact Or.inr ⟨e', List.mem_cons_of_mem _ he', h1, h2⟩
      · intro e' he'
        rcases List.mem_cons.mp he' with rfl | hmem
        · exact hle
        · exact hmin e' hmem
    · have hstep : trackStep hav (some t0) e = some t0 := by
        simp [trackStep, hd]
      rw [hstep]
      obtain ⟨t, ht, hle, horig, hmin⟩ := ih t0
      refine ⟨t, ht, hle, ?_, ?_⟩
      · rcases horig with h | ⟨e', he', h1, h2⟩
        · exact Or.inl h
        · exact Or.inr ⟨e', List.mem_cons_of_mem _ he', h1, h2⟩
      · intro e' he'
        rcases List.mem_cons.mp he' with rfl | hmem
        · exact le_trans hle (not_lt.mp hd)
        · exact hmin e' hmem

lemma track1_none_spec (hav : ℚ → ℚ → ℚ) (l : Catalog) (hne : l ≠ []) :
    ∃ t, track1 hav l none = some t ∧
      (∃ e ∈ l, t.id = e.1 ∧ t.distance = stationDist hav e) ∧
      ∀ e ∈ l, t.distance ≤ stationDist hav e := by
  match l, hne with
  | e :: l, _ =>
    rw [track1_cons]
    have hstep : trackStep hav none e = some ⟨e.1, stationDist hav e⟩ := rfl
    rw [hstep]
    obtain ⟨t, ht, hle, horig, hmin⟩ := track1_some_spec hav l ⟨e.1, stationDist hav e⟩
    refine ⟨t, ht, ?_, ?_⟩
    · rcases horig with h | ⟨e', he', h1, h2⟩
      · exact ⟨e, List.mem_cons_self e l, by rw [h], by rw [h]⟩
      · exact ⟨e', List.mem_cons_of_mem _ he', h1, h2⟩
    · intro e' he'
      rcases List.mem_cons.mp he' with rfl | hmem
      · exact hle
      · exact hmin e' hmem

lemma trackNearest_aux (hav : ℚ → ℚ → ℚ) (l : Catalog) :
    ∀ acc : Option Tracked × Option Tracked,
      l.foldl
        (fun acc e =>
          if e.2.isHighAltitude then (trackStep hav acc.1 e, acc.2)
          else (acc.1, trackStep hav acc.2 e)) acc =
      (track1 hav (l.filter (fun e => e.2.isHighAltitude)) acc.1,
       track1 hav (l.filter (fun e => !e.2.isHighAltitude)) acc.2) := by
  induction l with
  | nil => intro acc; rfl
  | cons e l ih =>
    intro acc
    rw [List.foldl_cons, List.filter_cons, List.filter_cons]
    cases h : e.2.isHighAltitude
    · simpa [h, track1_cons] using ih (acc.1, trackStep hav acc.2 e)
    · simpa [h, track1_cons] using ih (trackStep hav acc.1 e, acc.2)

lemma trackNearest_fst (hav : ℚ → ℚ → ℚ) (l : Catalog) :
    (trackNearest hav l).1 = track1 hav (l.filter (fun e => e.2.isHighAltitude)) none := by
  rw [trackNearest, trackNearest_aux]

lemma trackNearest_snd (hav : ℚ → ℚ → ℚ) (l : Catalog) :
    (trackNearest hav l).2 = track1 hav (l.filter (fun e => !e.2.isHighAltitude)) none := by
  rw [trackNearest, trackNearest_aux]

/-- C1: with forceHighAltitude, on a catalog holding at least one
high-altitude and at least one regular station, findNearestStation
returns a nearest high-altitude station, except when the nearest
high-altitude distance exceeds 3 times the nearest regular distance and
the nearest regular station is within 40 km, in which case it returns a
nearest regular station flagged isHighAltitudeFallback. -/
theorem c1_force_high_altitude (hav : ℚ → ℚ → ℚ) (stations : Catalog) (excl : Bool)
    (hHA : ∃ e ∈ stations, e.2.isHighAltitude = true)
    (hReg : ∃ e ∈ stations, e.2.isHighAltitude = false) :
    ∃ ha ∈ stations, ∃ reg ∈ stations,
      ha.2.isHighAltitude = true ∧ reg.2.isHighAltitude = false ∧
      (∀ e ∈ stations, e.2.isHighAltitude = true →
        stationDist hav ha ≤ stationDist hav e) ∧
      (∀ e ∈ stations, e.2.isHighAltitude = false →
        stationDist hav reg ≤ stationDist hav e) ∧
      (if stationDist hav reg < REGULAR_STATION_MAX_KM ∧
          stationDist hav ha > stationDist hav reg * highAltFallbackFactor then
        findNearestStation hav stations excl true =
          some ⟨reg.1, round2 (stationDist hav reg), lookupStation stations reg.1, true⟩
      else
        findNearestStation hav stations excl true =
          some ⟨ha.1, round2 (stationDist hav ha), lookupStation stations ha.1, false⟩) := by
  have hfHA : stations.filter (fun e => e.2.isHighAltitude) ≠ [] := by
    obtain ⟨e, he, hp⟩ := hHA
    intro hnil
    have := List.filter_eq_nil_iff.mp hnil e he
    simp [hp] at this
  have hfReg : stations.filter (fun e => !e.2.isHighAltitude) ≠ [] := by
    obtain ⟨e, he, hp⟩ := hReg
    intro hnil
    have := List.filter_eq_nil_iff.mp hnil e he
    simp [hp] at this
  obtain ⟨tHA, htHA, ⟨eHA, heHA, hid1, hd1⟩, hmin1⟩ := track1_none_spec hav _ hfHA
  obtain ⟨tReg, htReg, ⟨eReg, heReg, hid2, hd2⟩, hmin2⟩ := track1_none_spec hav _ hfReg
  obtain ⟨heHAm, heHAp⟩ := List.mem_filter.mp heHA
  obtain ⟨heRegm, heRegp⟩ := List.mem_filter.mp heReg
  have heRegp' : eReg.2.isHighAltitude = false := by simpa using heRegp
  have h1 : (trackNearest hav stations).1 = some tHA := by
    rw [trackNearest_fst]; exact htHA
  have h2 : (trackNearest hav stations).2 = some tReg := by
    rw [trackNearest_snd]; exact htReg
  refine ⟨eHA, heHAm, eReg, heRegm, heHAp, heRegp', ?_, ?_, ?_⟩
  · intro e he hp
    rw [← hd1]
    exact hmin1 e (List.mem_filter.mpr ⟨he, hp⟩)
  · intro e he hp
    rw [← hd2]
    exact hmin2 e (List.mem_filter.mpr ⟨he, by simp [hp]⟩)
  · by_cases hcond : stationDist hav eReg < REGULAR_STATION_MAX_KM ∧
      stationDist hav eHA > stationDist hav eReg * highAltFallbackFactor
    · rw [if_pos hcond]
      have hsf : shouldFallback (some tHA) (some tReg) = true := by
        simp only [shouldFallback, Bool.and_eq_true, decide_eq_true_eq]
        rw [hd1, hd2]
        exact ⟨hcond.1, hcond.2⟩
      simp only [findNearestStation, if_true, h1, h2, hsf]
      rw [hid2, hd2]
    · rw [if_neg hcond]
      have hsf : shouldFallback (some tHA) (some tReg) = false := by
        simp only [shouldFallback, Bool.and_eq_false_iff, decide_eq_false_iff_not]
        rw [hd1, hd2]
        exact not_and_or.mp hcond
      simp only [findNearestStation, if_true, h1, h2, hsf]
      rw [hid1, hd1]

unseal Rat.add Rat.sub Rat.mul Rat.inv in
/-- C1 witness: a high-altitude candidate at 130 km against a regular
candidate at 20 km triggers the regular fallback. -/
theorem c1_force_high_altitude_witness :
    ∃ ha ∈ ([("HA1", ⟨"Izana", "Tenerife", "", 130, 0, 2371, false, true, []⟩),
             ("R1", ⟨"Sur", "Tenerife", "", 20, 0, 50, false, false, []⟩)] : Catalog),
    ∃ reg ∈ ([("HA1", ⟨"Izana", "Tenerife", "", 130, 0, 2371, false, true, []⟩),
              ("R1", ⟨"Sur", "Tenerife", "", 20, 0, 50, false, false, []⟩)] : Catalog),
      ha.2.isHighAltitude = true ∧ reg.2.isHighAltitude = false ∧
      (∀ e ∈ ([("HA1", ⟨"Izana", "Tenerife", "", 130, 0, 2371, false, true, []⟩),
               ("R1", ⟨"Sur", "Tenerife", "", 20, 0, 50, false, false, []⟩)] : Catalog),
        e.2.isHighAltitude = true →
        stationDist (fun la _ => la) ha ≤ stationDist (fun la _ => la) e) ∧
      (∀ e ∈ ([("HA1", ⟨"Izana", "Tenerife", "", 130, 0, 2371, false, true, []⟩),
               ("R1", ⟨"Sur", "Tenerife", "", 20, 0, 50, false, false, []⟩)] : Catalog),
        e.2.isHighAltitude = false →
        stationDist (fun la _ => la) reg ≤ stationDist (fun la _ => la) e) ∧
      (if stationDist (fun la _ => la) reg < REGULAR_STATION_MAX_KM ∧
          stationDist (fun la _ => la) ha >
            stationDist (fun la _ => la) reg * highAltFallbackFactor then
        findNearestStation (fun la _ => la)
          [("HA1", ⟨"Izana", "Tenerife", "", 130, 0, 2371, false, true, []⟩),
           ("R1", ⟨"Sur", "Tenerife", "", 20, 0, 50, false, false, []⟩)] true true =
          some ⟨reg.1, round2 (stationDist (fun la _ => la) reg),
            lookupStation
              [("HA1", ⟨"Izana", "Tenerife", "", 130, 0, 2371, false, true, []⟩),
               ("R1", ⟨"Sur", "Tenerife", "", 20, 0, 50, false, false, []⟩)] reg.1, true⟩
      else
        findNearestStation (fun la _ => la)
          [("HA1", ⟨"Izana", "Tenerife", "", 130, 0, 2371, false, true, []⟩),
           ("R1", ⟨"Sur", "Tenerife", "", 20, 0, 50, false, false, []⟩)] true true =
          some ⟨ha.1, round2 (stationDist (fun la _ => la) ha),
            lookupStation
              [("HA1", ⟨"Izana", "Tenerife", "", 130, 0, 2371, false, true, []⟩),
               ("R1", ⟨"Sur", "Tenerife", "", 20, 0, 50, false, false, []⟩)] ha.1, false⟩) :=
  c1_force_high_altitude (fun la _ => la)
    [("HA1", ⟨"Izana", "Tenerife", "", 130, 0, 2371, false, true, []⟩),
     ("R1", ⟨"Sur", "Tenerife", "", 20, 0, 50, false, false, []⟩)] true
    (by decide) (by decide)

/-- C2 amended: with excludeHighAltitude and no forceHighAltitude,
findNearestStation returns a nearest regular station whenever one exists,
even if a high-altitude station is closer; but when the catalog holds
only high-altitude stations it falls through and returns the nearest
high-altitude station rather than nothing. -/
theorem c2_exclude_high_altitude (hav : ℚ → ℚ → ℚ) (stations : Catalog) :
    ((∃ e ∈ stations, e.2.isHighAltitude = false) →
      ∃ reg ∈ stations, reg.2.isHighAltitude = false ∧
        (∀ e ∈ stations, e.2.isHighAltitude = false →
          stationDist hav reg ≤ stationDist hav e) ∧
        findNearestStation hav stations true false =
          some ⟨reg.1, round2 (stationDist hav reg), lookupStation stations reg.1, false⟩) ∧
    ((∀ e ∈ stations, e.2.isHighAltitude = true) → stations ≠ [] →
      ∃ ha ∈ stations, ha.2.isHighAltitude = true ∧
        (∀ e ∈ stations, stationDist hav ha ≤ stationDist hav e) ∧
        findNearestStation hav stations true false =
          some ⟨ha.1, round2 (stationDist hav ha), lookupStation stations ha.1, false⟩) := by
  constructor
  · intro hReg
    have hfReg : stations.filter (fun e => !e.2.isHighAltitude) ≠ [] := by
      obtain ⟨e, he, hp⟩ := hReg
      intro hnil
      have := List.filter_eq_nil_iff.mp hnil e he
      simp [hp] at this
    obtain ⟨tReg, htReg, ⟨eReg, heReg, hid2, hd2⟩, hmin2⟩ := track1_none_spec hav _ hfReg
    obtain ⟨heRegm, heRegp⟩ := List.mem_filter.mp heReg
    have h2 : (trackNearest hav stations).2 = some tReg := by
      rw [trackNearest_snd]; exact htReg
    refine ⟨eReg, heRegm, by simpa using heRegp, ?_, ?_⟩
    · intro e he hp
      rw [← hd2]
      exact hmin2 e (List.mem_filter.mpr ⟨he, by simp [hp]⟩)
    · simp only [findNearestStation, Bool.false_eq_true, if_false, h2]
      rw [hid2, hd2]
  · intro hall hne
    have hfilHA : stations.filter (fun e => e.2.isHighAltitude) = stations :=
      List.filter_eq_self.mpr (fun e he => by simp [hall e he])
    have hfilReg : stations.filter (fun e => !e.2.isHighAltitude) = [] :=
      List.filter_eq_nil_iff.mpr (fun e he => by simp [hall e he])
    have hfHA : stations.filter (fun e => e.2.isHighAltitude) ≠ [] := by
      rw [hfilHA]; exact hne
    obtain ⟨tHA, htHA, ⟨eHA, heHA, hid1, hd1⟩, hmin1⟩ := track1_none_spec hav _ hfHA
    obtain ⟨heHAm, heHAp⟩ := List.mem_filter.mp heHA
    have h1 : (trackNearest hav stations).1 = some tHA := by
      rw [trackNearest_fst]; exact htHA
    have h2 : (trackNearest hav stations).2 = none := by
      rw [trackNearest_snd, hfilReg]; rfl
    refine ⟨eHA, heHAm, heHAp, ?_, ?_⟩
    · intro e he
      rw [← hd1]
      refine hmin1 e ?_
      rw [hfilHA]
      exact he
    · simp only [findNearestStation, Bool.false_eq_true, if_false, h1, h2, Option.map_some']
      rw [hid1, hd1]

unseal Rat.add Rat.sub Rat.mul Rat.inv in
/-- C2 witness: with a regular station at 20 km and a strictly closer
high-altitude station at 10 km, the regular station is returned. -/
theorem c2_exclude_high_altitude_witness :
    ∃ reg ∈ ([("HA1", ⟨"Izana", "Tenerife", "", 10, 0, 2371, false, true, []⟩),
              ("R1", ⟨"Sur", "Tenerife", "", 20, 0, 50, false, false, []⟩)] : Catalog),
      reg.2.isHighAltitude = false ∧
      (∀ e ∈ ([("HA1", ⟨"Izana", "Tenerife", "", 10, 0, 2371, false, true, []⟩),
               ("R1", ⟨"Sur", "Tenerife", "", 20, 0, 50, false, false, []⟩)] : Catalog),
        e.2.isHighAltitude = false →
        stationDist (fun la _ => la) reg ≤ stationDist (fun la _ => la) e) ∧
      findNearestStation (fun la _ => la)
        [("HA1", ⟨"Izana", "Tenerife", "", 10, 0, 2371, false, true, []⟩),
         ("R1", ⟨"Sur", "Tenerife", "", 20, 0, 50, false, false, []⟩)] true false =
        some ⟨reg.1, round2 (stationDist (fun la _ => la) reg),
          lookupStation
            [("HA1", ⟨"Izana", "Tenerife", "", 10, 0, 2371, false, true, []⟩),
             ("R1", ⟨"Sur", "Tenerife", "", 20, 0, 50, false, false, []⟩)] reg.1, false⟩ :=
  (c2_exclude_high_altitude (fun la _ => la)
    [("HA1", ⟨"Izana", "Tenerife", "", 10, 0, 2371, false, true, []⟩),
     ("R1", ⟨"Sur", "Tenerife", "", 20, 0, 50, false, false, []⟩)]).1 (by decide)

unseal Rat.add Rat.sub Rat.mul Rat.inv in
/-- C2 counterexample: on a catalog holding only a high-altitude station,
findNearestStation with excludeHighAltitude still returns that
high-altitude station, contradicting the claim that it never returns a
high-altitude station and returns no station on an all-high-altitude
catalog. -/
theorem c2_exclude_high_altitude_counterexample :
    findNearestStation (fun _ _ => 10)
      [("C430E", ⟨"Izana", "Tenerife", "", 28, -16, 2371, false, true, []⟩)] true false ≠
      none ∧
    (findNearestStation (fun _ _ => 10)
      [("C430E", ⟨"Izana", "Tenerife", "", 28, -16, 2371, false, true, []⟩)] true false).map
        (fun r => r.station.isHighAltitude) = some true := by
  constructor
  · decide
  · decide

/-- C3 amended: both interpolating operations enter single-station mode
exactly when the nearest station's distance as computed by
findNearestStations, which is rounded to one decimal, is strictly below
the 5 km threshold; with a raw distance of 4.9 km this matches the claim,
but a raw distance of 4.96 km rounds to 5.0 and is blended (see the
counterexample), so the claim's strict-less-than-5 boundary on the raw
distance is off inside [4.95, 5).  On or above the threshold, with all
three nearest stations answering, the result blends exactly those 3
stations with the inverse-square-distance weights. -/
theorem c3_single_station_threshold (hav : ℚ → ℚ → ℚ) (stations : Catalog)
    (fetch : String → Option LiveWeatherResult) (now : String)
    (sun : String → SunChanceResult) (s0 s1 s2 : NearbyStation)
    (hn : findNearestStations hav stations 3 true = [s0, s1, s2]) :
    (s0.distance < SINGLE_STATION_THRESHOLD_KM →
      (∀ r0, fetch s0.stationId = some r0 →
        fetchInterpolatedWeather hav stations fetch now =
          some ⟨r0.data, [⟨s0.stationId, s0.name, s0.distance, 1⟩], true, r0.isFromCache⟩) ∧
      calculateInterpolatedSunChance hav stations sun =
        some ⟨(sun s0.stationId).sun_chance, (sun s0.stationId).sunny_days,
          (sun s0.stationId).total_days, (sun s0.stationId).confidence,
          [⟨s0.stationId, s0.name, s0.distance, 1, (sun s0.stationId).sun_chance⟩],
          true⟩) ∧
    (SINGLE_STATION_THRESHOLD_KM ≤ s0.distance →
      (∀ r0 r1 r2, fetch s0.stationId = some r0 → fetch s1.stationId = some r1 →
          fetch s2.stationId = some r2 →
        ∃ res, fetchInterpolatedWeather hav stations fetch now = some res ∧
          res.isSingleStation = false ∧
          res.stations.map (fun sw => sw.stationId) =
            [s0.stationId, s1.stationId, s2.stationId] ∧
          res.stations.map (fun sw => sw.weight) =
            (calculateDistanceWeights [s0.distance, s1.distance, s2.distance]).map round2) ∧
      ((sun s0.stationId).total_days > 0 → (sun s1.stationId).total_days > 0 →
          (sun s2.stationId).total_days > 0 →
        ∃ res, calculateInterpolatedSunChance hav stations sun = some res ∧
          res.isSingleStation = false ∧
          res.stations.map (fun sw => sw.stationId) =
            [s0.stationId, s1.stationId, s2.stationId] ∧
          res.stations.map (fun sw => sw.weight) =
            (calculateDistanceWeights [s0.distance, s1.distance, s2.distance]).map round2)) := by
  constructor
  · intro h5
    constructor
    · intro r0 hf
      simp only [fetchInterpolatedWeather, hn]
      rw [if_pos h5, hf]
    · simp only [calculateInterpolatedSunChance, hn]
      rw [if_pos h5]
  · intro hge
    have hnl : ¬(s0.distance < SINGLE_STATION_THRESHOLD_KM) := not_lt.mpr hge
    constructor
    · intro r0 r1 r2 hf0 hf1 hf2
      simp only [fetchInterpolatedWeather, hn]
      rw [if_neg hnl]
      simp only [List.filterMap_cons, hf0, hf1, hf2, Option.map_some', List.filterMap_nil]
      refine ⟨_, rfl, rfl, ?_, ?_⟩
      · simp [calculateDistanceWeights]
      · simp [calculateDistanceWeights]
    · intro ht0 ht1 ht2
      simp only [calculateInterpolatedSunChance, hn]
      rw [if_neg hnl]
      simp only [List.map_cons, List.map_nil, List.filter_cons, List.filter_nil,
        decide_eq_true_eq, ht0, ht1, ht2, if_pos]
      refine ⟨_, rfl, rfl, ?_, ?_⟩
      · simp [calculateDistanceWeights]
      · simp [calculateDistanceWeights]

unseal Rat.add Rat.sub Rat.mul Rat.inv in
/-- C3 witness: a nearest station at 4.9 km (below the threshold) puts
both operations in single-station mode with weight 1. -/
theorem c3_single_station_threshold_witness :
    fetchInterpolatedWeather (fun la _ => if la = 1 then 49/10 else if la = 2 then 20 else 30)
        [("A", ⟨"A", "T", "", 1, 0, 0, false, false, []⟩),
         ("B", ⟨"B", "T", "", 2, 0, 0, false, false, []⟩),
         ("C", ⟨"C", "T", "", 3, 0, 0, false, false, []⟩)]
        (fun _ => some ⟨⟨20, 50, 10, 0, "sunny", "clearSky", "t"⟩, false⟩) "now" =
      some ⟨⟨20, 50, 10, 0, "sunny", "clearSky", "t"⟩,
        [⟨"A", "A", 49/10, 1⟩], true, false⟩ ∧
    calculateInterpolatedSunChance
        (fun la _ => if la = 1 then 49/10 else if la = 2 then 20 else 30)
        [("A", ⟨"A", "T", "", 1, 0, 0, false, false, []⟩),
         ("B", ⟨"B", "T", "", 2, 0, 0, false, false, []⟩),
         ("C", ⟨"C", "T", "", 3, 0, 0, false, false, []⟩)]
        (fun _ => ⟨30, 60, 50, .high⟩) =
      some ⟨50, 30, 60, .high, [⟨"A", "A", 49/10, 1, 50⟩], true⟩ := by
  have h := c3_single_station_threshold
    (fun la _ => if la = 1 then 49/10 else if la = 2 then 20 else 30)
    [("A", ⟨"A", "T", "", 1, 0, 0, false, false, []⟩),
     ("B", ⟨"B", "T", "", 2, 0, 0, false, false, []⟩),
     ("C", ⟨"C", "T", "", 3, 0, 0, false, false, []⟩)]
    (fun _ => some ⟨⟨20, 50, 10, 0, "sunny", "clearSky", "t"⟩, false⟩) "now"
    (fun _ => ⟨30, 60, 50, .high⟩)
    ⟨"A", "A", "T", 49/10, 1, 0⟩ ⟨"B", "B", "T", 20, 2, 0⟩ ⟨"C", "C", "T", 30, 3, 0⟩
    (by decide)
  obtain ⟨hlow, -⟩ := h
  obtain ⟨hw, hs⟩ := hlow (by decide)
  exact ⟨hw ⟨⟨20, 50, 10, 0, "sunny", "clearSky", "t"⟩, false⟩ rfl, hs⟩

unseal Rat.add Rat.sub Rat.mul Rat.inv in
/-- C3 counterexample: a nearest station whose raw distance 4.96 km is
strictly below 5 km still yields blended (not single-station) results,
because findNearestStations rounds 4.96 to 5.0 before the threshold
comparison. -/
theorem c3_single_station_threshold_counterexample :
    (124/25 : ℚ) < 5 ∧
    (fetchInterpolatedWeather (fun la _ => if la = 1 then 124/25 else if la = 2 then 20 else 30)
        [("A", ⟨"A", "T", "", 1, 0, 0, false, false, []⟩),
         ("B", ⟨"B", "T", "", 2, 0, 0, false, false, []⟩),
         ("C", ⟨"C", "T", "", 3, 0, 0, false, false, []⟩)]
        (fun _ => some ⟨⟨20, 50, 10, 0, "sunny", "clearSky", "t"⟩, false⟩) "now").map
      (fun r => r.isSingleStation) = some false ∧
    (calculateInterpolatedSunChance
        (fun la _ => if la = 1 then 124/25 else if la = 2 then 20 else 30)
        [("A", ⟨"A", "T", "", 1, 0, 0, false, false, []⟩),
         ("B", ⟨"B", "T", "", 2, 0, 0, false, false, []⟩),
         ("C", ⟨"C", "T", "", 3, 0, 0, false, false, []⟩)]
        (fun _ => ⟨30, 60, 50, .high⟩)).map
      (fun r => r.isSingleStation) = some false := by
  refine ⟨by decide, by decide, by decide⟩

unseal Rat.add Rat.sub Rat.mul Rat.inv in
/-- C5: with the configured thresholds minSunHours = 6 and maxPrecip = 0,
when some filtered record has non-null sun-hours calculateSunChance
counts as sunny exactly the rows with non-null sol strictly above 6 whose
precipitation is null or at most 0; sol = 6.0 with precip = 0 is not
sunny, sol = 6.1 with precip = 0 is sunny, and sol = 7.0 with
precip = 0.5 is not sunny. -/
theorem c5_sunny_day_rule (northernMultiplier : ℚ) (isNorthern : Bool)
    (data : List SunRow) (month dayStart dayEnd : ℤ)
    (hasSol : (data.filter (inDayRange month dayStart dayEnd)).any
      (fun row => row.sol.isSome) = true) :
    (calculateSunChance 6 0 northernMultiplier isNorthern data month dayStart dayEnd).sunny_days =
      (((data.filter (inDayRange month dayStart dayEnd)).filter (isSunnyRow 6 0)).length : ℤ) ∧
    (∀ row : SunRow, isSunnyRow 6 0 row = true ↔
      ∃ s, row.sol = some s ∧ 6 < s ∧
        (row.precip = none ∨ ∃ p, row.precip = some p ∧ p ≤ 0)) ∧
    isSunnyRow 6 0 ⟨1, 1, some 6, some 0⟩ = false ∧
    isSunnyRow 6 0 ⟨1, 1, some (61/10), some 0⟩ = true ∧
    isSunnyRow 6 0 ⟨1, 1, some 7, some (1/2)⟩ = false := by
  have hne : data.isEmpty = false := by
    cases data with
    | nil => simp at hasSol
    | cons a l => rfl
  refine ⟨?_, ?_, by decide, by decide, by decide⟩
  · simp only [calculateSunChance, hne, Bool.false_eq_true, if_false, hasSol, if_true]
  · intro row
    cases hsol : row.sol with
    | none => simp [isSunnyRow, hsol]
    | some s =>
      cases hp : row.precip with
      | none =>
        simp [isSunnyRow, hsol, hp]
      | some p =>
        simp [isSunnyRow, hsol, hp]

/-- C5 witness: a three-row July sample with sun-hours data present. -/
theorem c5_sunny_day_rule_witness :
    (calculateSunChance 6 0 (17/20) false
      [⟨7, 1, some 6, some 0⟩, ⟨7, 2, some (61/10), some 0⟩, ⟨7, 3, some 7, some (1/2)⟩]
      7 1 31).sunny_days =
      ((([⟨7, 1, some 6, some 0⟩, ⟨7, 2, some (61/10), some 0⟩,
          ⟨7, 3, some 7, some (1/2)⟩] : List SunRow).filter
            (inDayRange 7 1 31)).filter (isSunnyRow 6 0)).length :=
  (c5_sunny_day_rule (17/20) false
    [⟨7, 1, some 6, some 0⟩, ⟨7, 2, some (61/10), some 0⟩, ⟨7, 3, some 7, some (1/2)⟩]
    7 1 31 (by decide)).1

/-- C6: calculateSunChance grades confidence high exactly when the
filtered set has at least 50 days and sun-hours data is present, medium
exactly when it has at least 20 days but not the high conditions, low
exactly when it has fewer than 20 days; and an empty filtered set yields
the zero result with low confidence. -/
theorem c6_confidence_grading (minSunHours maxPrecip northernMultiplier : ℚ)
    (isNorthern : Bool) (data : List SunRow) (month dayStart dayEnd : ℤ) :
    ((calculateSunChance minSunHours maxPrecip northernMultiplier isNorthern data
        month dayStart dayEnd).confidence = .high ↔
      (((data.filter (inDayRange month dayStart dayEnd)).length : ℤ) ≥ 50 ∧
        (data.filter (inDayRange month dayStart dayEnd)).any
          (fun row => row.sol.isSome) = true)) ∧
    ((calculateSunChance minSunHours maxPrecip northernMultiplier isNorthern data
        month dayStart dayEnd).confidence = .medium ↔
      (((data.filter (inDayRange month dayStart dayEnd)).length : ℤ) ≥ 20 ∧
        ¬(((data.filter (inDayRange month dayStart dayEnd)).length : ℤ) ≥ 50 ∧
          (data.filter (inDayRange month dayStart dayEnd)).any
            (fun row => row.sol.isSome) = true))) ∧
    ((calculateSunChance minSunHours maxPrecip northernMultiplier isNorthern data
        month dayStart dayEnd).confidence = .low ↔
      ((data.filter (inDayRange month dayStart dayEnd)).length : ℤ) < 20) ∧
    ((data.filter (inDayRange month dayStart dayEnd)).length = 0 →
      calculateSunChance minSunHours maxPrecip northernMultiplier isNorthern data
        month dayStart dayEnd = ⟨0, 0, 0, .low⟩) := by
  by_cases hd : data.isEmpty = true
  · have hnil : data = [] := List.isEmpty_iff.mp hd
    subst hnil
    refine ⟨?_, ?_, ?_, fun _ => rfl⟩ <;> simp [calculateSunChance]
  · have hne : data.isEmpty = false := by
      cases h : data.isEmpty
      · rfl
      · exact absurd h hd
    by_cases h1 : (((data.filter (inDayRange month dayStart dayEnd)).length : ℤ) ≥ 50 ∧
        (data.filter (inDayRange month dayStart dayEnd)).any
          (fun row => row.sol.isSome) = true)
    · have hconf : (calculateSunChance minSunHours maxPrecip northernMultiplier isNorthern
          data month dayStart dayEnd).confidence = .high := by
        simp only [calculateSunChance, hne, Bool.false_eq_true, if_false]
        rw [if_pos h1]
      refine ⟨iff_of_true hconf h1, ?_, ?_, ?_⟩
      · refine iff_of_false (by rw [hconf]; decide) ?_
        rintro ⟨-, hna⟩
        exact hna h1
      · refine iff_of_false (by rw [hconf]; decide) ?_
        have := h1.1
        omega
      · intro h0
        have := h1.1
        omega
    · by_cases h2 : (((data.filter (inDayRange month dayStart dayEnd)).length : ℤ) ≥ 20)
      · have hconf : (calculateSunChance minSunHours maxPrecip northernMultiplier isNorthern
            data month dayStart dayEnd).confidence = .medium := by
          simp only [calculateSunChance, hne, Bool.false_eq_true, if_false]
          rw [if_neg h1, if_pos h2]
        refine ⟨iff_of_false (by rw [hconf]; decide) h1, iff_of_true hconf ⟨h2, h1⟩, ?_, ?_⟩
        · refine iff_of_false (by rw [hconf]; decide) (by omega)
        · intro h0
          omega
      · have hconf : (calculateSunChance minSunHours maxPrecip northernMultiplier isNorthern
            data month dayStart dayEnd).confidence = .low := by
          simp only [calculateSunChance, hne, Bool.false_eq_true, if_false]
          rw [if_neg h1, if_neg h2]
        refine ⟨iff_of_false (by rw [hconf]; decide) h1, ?_, iff_of_true hconf (by omega), ?_⟩
        · refine iff_of_false (by rw [hconf]; decide) ?_
          rintro ⟨hb, -⟩
          exact h2 hb
        · intro h0
          have hfil : data.filter (inDayRange month dayStart dayEnd) = [] :=
            List.length_eq_zero.mp h0
          simp only [calculateSunChance, hne, Bool.false_eq_true, if_false, hfil]
          cases isNorthern <;> simp [jsRound_zero]

/-- C6 witness: an empty filtered set yields the zero result with
confidence low, here with a single out-of-range row. -/
theorem c6_confidence_grading_witness :
    calculateSunChance 6 0 (17/20) false [⟨1, 5, some 8, some 0⟩] 7 1 31 = ⟨0, 0, 0, .low⟩ :=
  (c6_confidence_grading 6 0 (17/20) false [⟨1, 5, some 8, some 0⟩] 7 1 31).2.2.2 (by decide)

/-- C7 counterexample: the final 7-day window of getBestWeeksForStation
starts at day 358 but covers only days 358 through 364; day 365 belongs
to no scored window, contradicting the claim that the final window covers
days 358 through 365 and that every day 1..365 is covered. -/
theorem c7_windows_counterexample :
    weekWindowDays 358 = [358, 359, 360, 361, 362, 363, 364] ∧
    (∀ s ∈ weekStartDays, 365 ∉ weekWindowDays s) ∧
    weekStartDays.getLast? = some 358 := by decide

/-- C7 amended: the scored windows start at days 1, 8, ..., 358 stepping
by 7, the final window covers days 358 through 364 (not 365), and every
day from 1 to 364 lies in exactly one window while day 365 lies in
none. -/
theorem c7_week_windows (d : ℕ) (h1 : 1 ≤ d) (h2 : d ≤ 364) :
    (∃! s, s ∈ weekStartDays ∧ d ∈ weekWindowDays s) ∧
    weekWindowDays 358 = [358, 359, 360, 361, 362, 363, 364] ∧
    (∀ s ∈ weekStartDays, 365 ∉ weekWindowDays s) := by
  refine ⟨?_, by decide, by decide⟩
  have hq : 7 * ((d - 1) / 7) + (d - 1) % 7 = d - 1 := Nat.div_add_mod (d - 1) 7
  have hr7 : (d - 1) % 7 < 7 := Nat.mod_lt _ (by norm_num)
  refine ⟨1 + 7 * ((d - 1) / 7), ⟨?_, ?_⟩, ?_⟩
  · rw [weekStartDays, List.mem_range']
    exact ⟨(d - 1) / 7, by omega, rfl⟩
  · rw [weekWindowDays, List.mem_filter, List.mem_range'_1]
    refine ⟨⟨by omega, by omega⟩, ?_⟩
    simp only [decide_eq_true_eq]
    omega
  · rintro s ⟨hs, hd⟩
    rw [weekStartDays, List.mem_range'] at hs
    obtain ⟨i, hi, rfl⟩ := hs
    rw [weekWindowDays, List.mem_filter, List.mem_range'_1] at hd
    obtain ⟨⟨hlo, hhi⟩, -⟩ := hd
    omega

/-- C7 witness: day 100 lies in exactly one scored window. -/
theorem c7_week_windows_witness :
    ∃! s, s ∈ weekStartDays ∧ 100 ∈ weekWindowDays s :=
  (c7_week_windows 100 (by decide) (by decide)).1

lemma insertSorted_perm {α : Type} (le : α → α → Bool) (a : α) (l : List α) :
    (insertSorted le a l).Perm (a :: l) := by
  induction l with
  | nil => exact List.Perm.refl _
  | cons b l ih =>
    simp only [insertSorted]
    split
    · exact (ih.cons b).trans (List.Perm.swap a b l)
    · exact List.Perm.refl _

lemma stableSort_perm_aux {α : Type} (le : α → α → Bool) :
    ∀ (l acc : List α),
      (l.foldl (fun acc x => insertSorted le x acc) acc).Perm (l ++ acc) := by
  intro l
  induction l with
  | nil => intro acc; exact List.Perm.refl _
  | cons e l ih =>
    intro acc
    rw [List.foldl_cons]
    refine (ih (insertSorted le e acc)).trans ?_
    refine (List.Perm.append_left l (insertSorted_perm le e acc)).trans ?_
    exact List.perm_middle

lemma stableSort_perm {α : Type} (le : α → α → Bool) (l : List α) :
    (stableSort le l).Perm l := by
  have h := stableSort_perm_aux le l []
  simpa [stableSort] using h

lemma insertSorted_pairwise {α : Type} (le : α → α → Bool)
    (htrans : ∀ a b c, le a b = true → le b c = true → le a c = true)
    (htotal : ∀ a b, le a b = true ∨ le b a = true) (a : α) (l : List α)
    (hl : l.Pairwise (fun x y => le x y = true)) :
    (insertSorted le a l).Pairwise (fun x y => le x y = true) := by
  induction l with
  | nil => simp [insertSorted]
  | cons b l ih =>
    obtain ⟨hb, hl'⟩ := List.pairwise_cons.mp hl
    simp only [insertSorted]
    split
    case isTrue hba =>
      refine List.pairwise_cons.mpr ⟨?_, ih hl'⟩
      intro c hc
      rcases List.mem_cons.mp ((insertSorted_perm le a l).mem_iff.mp hc) with rfl | hcl
      · exact hba
      · exact hb c hcl
    case isFalse hba =>
      have hab : le a b = true := by
        rcases htotal a b with h | h
        · exact h
        · exact absurd h hba
      refine List.pairwise_cons.mpr ⟨?_, hl⟩
      intro c hc
      rcases List.mem_cons.mp hc with rfl | hcl
      · exact hab
      · exact htrans a b c hab (hb c hcl)

lemma stableSort_pairwise {α : Type} (le : α → α → Bool)
    (htrans : ∀ a b c, le a b = true → le b c = true → le a c = true)
    (htotal : ∀ a b, le a b = true ∨ le b a = true) (l : List α) :
    (stableSort le l).Pairwise (fun x y => le x y = true) := by
  suffices h : ∀ (l acc : List α), acc.Pairwise (fun x y => le x y = true) →
      (l.foldl (fun acc x => insertSorted le x acc) acc).Pairwise
        (fun x y => le x y = true) from h l [] (by simp)
  intro l
  induction l with
  | nil => intro acc hacc; exact hacc
  | cons e l ih =>
    intro acc hacc
    exact ih _ (insertSorted_pairwise le htrans htotal e acc hacc)

lemma interpStep_length (l : List ProcessedWeatherData) (i : ℕ) :
    (interpStep l i).length = l.length := by
  simp only [interpStep]
  repeat' split
  all_goals simp [List.length_set]

lemma recAt_set_ne (l : List ProcessedWeatherData) (i j : ℕ) (a : ProcessedWeatherData)
    (h : j ≠ i) : recAt (l.set i a) j = recAt l j := by
  rw [recAt, recAt, List.getD_eq_getElem?_getD, List.getD_eq_getElem?_getD,
    List.getElem?_set, if_neg (fun hh => h hh.symm)]

lemma recAt_set_self (l : List ProcessedWeatherData) (i : ℕ) (a : ProcessedWeatherData)
    (h : i < l.length) : recAt (l.set i a) i = a := by
  rw [recAt, List.getD_eq_getElem?_getD, List.getElem?_set, if_pos rfl, if_pos h]
  rfl

lemma recAt_interpStep_ne (l : List ProcessedWeatherData) (i j : ℕ) (h : j ≠ i) :
    recAt (interpStep l i) j = recAt l j := by
  simp only [interpStep]
  repeat' split
  all_goals first
    | rfl
    | exact recAt_set_ne l i j _ h

lemma interpStateAt_succ (s : List ProcessedWeatherData) (k : ℕ) :
    interpStateAt s (k + 1) = interpStep (interpStateAt s k) k := by
  unfold interpStateAt
  rw [List.range_succ, List.foldl_append, List.foldl_cons, List.foldl_nil]

lemma interpStateAt_length (s : List ProcessedWeatherData) :
    ∀ k, (interpStateAt s k).length = s.length := by
  intro k
  induction k with
  | zero => rfl
  | succ k ih => rw [interpStateAt_succ, interpStep_length, ih]

lemma recAt_interpStateAt_of_le (s : List ProcessedWeatherData) :
    ∀ k j, k ≤ j → recAt (interpStateAt s k) j = recAt s j := by
  intro k
  induction k with
  | zero => intro j _; rfl
  | succ k ih =>
    intro j h
    rw [interpStateAt_succ, recAt_interpStep_ne _ _ _ (by omega), ih j (by omega)]

lemma recAt_interpStateAt_mono (s : List ProcessedWeatherData) (k k' j : ℕ)
    (hjk : j < k) (hkk : k ≤ k') :
    recAt (interpStateAt s k') j = recAt (interpStateAt s k) j := by
  induction k', hkk using Nat.le_induction with
  | base => rfl
  | succ m hm ih => rw [interpStateAt_succ, recAt_interpStep_ne _ _ _ (by omega), ih]

lemma interpStep_of_isSome (l : List ProcessedWeatherData) (i : ℕ)
    (h : (recAt l i).tavg.isSome = true) : interpStep l i = l := by
  simp [interpStep, h]

lemma interpStateAt_tavg_some (s : List ProcessedWeatherData) :
    ∀ k i, (recAt s i).tavg.isSome = true →
      recAt (interpStateAt s k) i = recAt s i := by
  intro k
  induction k with
  | zero => intro i _; rfl
  | succ k ih =>
    intro i hi
    rw [interpStateAt_succ]
    by_cases hik : i = k
    · subst hik
      have hcur : recAt (interpStateAt s i) i = recAt s i :=
        recAt_interpStateAt_of_le s i i le_rfl
      rw [interpStep_of_isSome _ _ (by rw [hcur]; exact hi)]
      exact hcur
    · rw [recAt_interpStep_ne _ _ _ hik]
      exact ih i hi

/-- Agreement of the six fields the interpolator never writes. -/
def sameFrame (x y : ProcessedWeatherData) : Prop :=
  x.station_id = y.station_id ∧ x.date = y.date ∧ x.tmax = y.tmax ∧
    x.tmin = y.tmin ∧ x.precip = y.precip ∧ x.sol = y.sol

lemma sameFrame_refl (x : ProcessedWeatherData) : sameFrame x x :=
  ⟨rfl, rfl, rfl, rfl, rfl, rfl⟩

lemma interpStep_frame (l : List ProcessedWeatherData) (i : ℕ) :
    sameFrame (recAt (interpStep l i) i) (recAt l i) := by
  by_cases hi : i < l.length
  · simp only [interpStep]
    repeat' split
    all_goals first
      | exact sameFrame_refl _
      | (rw [recAt_set_self _ _ _ hi]; exact ⟨rfl, rfl, rfl, rfl, rfl, rfl⟩)
  · have hset : ∀ a : ProcessedWeatherData, l.set i a = l := fun a =>
      List.set_eq_of_length_le (le_of_not_lt hi)
    simp only [interpStep]
    repeat' split
    all_goals first
      | exact sameFrame_refl _
      | (rw [hset]; exact sameFrame_refl _)

lemma interpStateAt_frame (s : List ProcessedWeatherData) :
    ∀ k j, sameFrame (recAt (interpStateAt s k) j) (recAt s j) := by
  intro k
  induction k with
  | zero => intro j; exact sameFrame_refl _
  | succ k ih =>
    intro j
    rw [interpStateAt_succ]
    by_cases hjk : j = k
    · subst hjk
      obtain ⟨h1, h2, h3, h4, h5, h6⟩ := interpStep_frame (interpStateAt s j) j
      obtain ⟨g1, g2, g3, g4, g5, g6⟩ := ih j
      exact ⟨h1.trans g1, h2.trans g2, h3.trans g3, h4.trans g4, h5.trans g5, h6.trans g6⟩
    · rw [recAt_interpStep_ne _ _ _ hjk]
      exact ih j

lemma find?_congr_local {α : Type} {p q : α → Bool} :
    ∀ {l : List α}, (∀ x ∈ l, p x = q x) → l.find? p = l.find? q := by
  intro l
  induction l with
  | nil => intro _; rfl
  | cons a l ih =>
    intro h
    rw [List.find?_cons, List.find?_cons, ← h a (List.mem_cons_self a l)]
    cases hpa : p a
    · exact ih (fun x hx => h x (List.mem_cons_of_mem _ hx))
    · rfl

lemma prevValidIndex_some (l : List ProcessedWeatherData) (i p : ℕ)
    (h : prevValidIndex l i = some p) :
    p < i ∧ (recAt l p).tavg.isSome = true := by
  unfold prevValidIndex at h
  obtain ⟨ys, hys⟩ := List.getLast?_eq_some_iff.mp h
  have hp : p ∈ (List.range i).filter (fun j => (recAt l j).tavg.isSome) := by
    rw [hys]
    exact List.mem_append.mpr (Or.inr (by simp))
  obtain ⟨hr, hs⟩ := List.mem_filter.mp hp
  exact ⟨List.mem_range.mp hr, hs⟩

lemma nextValidIndex_some (l : List ProcessedWeatherData) (i n : ℕ)
    (h : nextValidIndex l i = some n) :
    i < n ∧ (recAt l n).tavg.isSome = true := by
  unfold nextValidIndex at h
  have hfound := List.find?_some h
  simp only [Bool.and_eq_true, decide_eq_true_eq] at hfound
  exact hfound

/-- C9: saving a live-weather snapshot and reading it back strictly less
than 24 hours later returns the identical snapshot; reading more than 24
hours after the write returns a miss and removes the entry from the
store.  The hypotheses 0 < t0 and stationId nonempty reflect that
Date.now() timestamps and station ids are truthy. -/
theorem c9_cache_round_trip (s : Store) (stationId : String) (data : LiveWeatherData)
    (t0 tRead tLate : ℤ) (ht0 : 0 < t0) (hid : stationId ≠ "")
    (hfresh : tRead - t0 < CACHE_EXPIRY_MS) (hlate : CACHE_EXPIRY_MS < tLate - t0) :
    getWeatherFromCache tRead (saveWeatherToCache t0 s stationId data) stationId =
      (some data, saveWeatherToCache t0 s stationId data) ∧
    getWeatherFromCache tLate (saveWeatherToCache t0 s stationId data) stationId =
      (none, storeRemove (saveWeatherToCache t0 s stationId data) (cacheKey stationId)) ∧
    (getWeatherFromCache tLate (saveWeatherToCache t0 s stationId data) stationId).2
      (cacheKey stationId) = none := by
  have hkey : (saveWeatherToCache t0 s stationId data) (cacheKey stationId) =
      some ⟨data, t0, stationId⟩ := by
    simp [saveWeatherToCache, storeSet]
  have hvalid : ¬((t0 : ℤ) = 0 ∨ stationId = "") := by
    rintro (h | h)
    · omega
    · exact hid h
  refine ⟨?_, ?_, ?_⟩
  · simp only [getWeatherFromCache, hkey]
    rw [if_neg hvalid, if_neg (by omega)]
  · simp only [getWeatherFromCache, hkey]
    rw [if_neg hvalid, if_pos (by omega)]
  · simp only [getWeatherFromCache, hkey]
    rw [if_neg hvalid, if_pos (by omega)]
    simp [storeRemove]

/-- C9 witness: a concrete round trip at 10 seconds and at 24 hours plus
one second after the write. -/
theorem c9_cache_round_trip_witness :
    getWeatherFromCache 1010000
        (saveWeatherToCache 1000000 (fun _ => none) "C430E"
          ⟨24, 65, 12, 0, "sunny", "clearSky", "2024-02-21T12:00:00"⟩) "C430E" =
      (some ⟨24, 65, 12, 0, "sunny", "clearSky", "2024-02-21T12:00:00"⟩,
        saveWeatherToCache 1000000 (fun _ => none) "C430E"
          ⟨24, 65, 12, 0, "sunny", "clearSky", "2024-02-21T12:00:00"⟩) ∧
    getWeatherFromCache (1000000 + 24 * 60 * 60 * 1000 + 1000)
        (saveWeatherToCache 1000000 (fun _ => none) "C430E"
          ⟨24, 65, 12, 0, "sunny", "clearSky", "2024-02-21T12:00:00"⟩) "C430E" =
      (none,
        storeRemove
          (saveWeatherToCache 1000000 (fun _ => none) "C430E"
            ⟨24, 65, 12, 0, "sunny", "clearSky", "2024-02-21T12:00:00"⟩)
          (cacheKey "C430E")) := by
  have h := c9_cache_round_trip (fun _ => none) "C430E"
    ⟨24, 65, 12, 0, "sunny", "clearSky", "2024-02-21T12:00:00"⟩
    1000000 1010000 (1000000 + 24 * 60 * 60 * 1000 + 1000)
    (by norm_num) (by decide) (by norm_num [CACHE_EXPIRY_MS]) (by norm_num [CACHE_EXPIRY_MS])
  exact ⟨h.1, h.2.1⟩


/-- C8 amended: interpolateMissingTemperatures fills each null
mean-temperature of the chronologically sorted series by linear
interpolation by index position (not by calendar date, see the
counterexample) between the nearest non-null neighbours at processing
time: the preceding neighbour is read from the already-processed output
prefix (so a value filled earlier in the scan can serve as neighbour),
the following neighbour from the still-unprocessed sorted input; with
only one neighbour its value is copied, with none the mean is synthesized
from tmax and tmin when both are present, and every filled record is
flagged is_interpolated. -/
theorem c8_gap_interpolation (data : List ProcessedWeatherData) (i : ℕ)
    (hi : i < (sortByDate data).length)
    (hnull : (recAt (sortByDate data) i).tavg = none) :
    (∀ p n, prevValidIndex (interpolateMissingTemperatures data) i = some p →
      nextValidIndex (sortByDate data) i = some n →
      recAt (interpolateMissingTemperatures data) i =
        { recAt (sortByDate data) i with
            tavg := some (round1
              ((recAt (interpolateMissingTemperatures data) p).tavg.getD 0 +
                ((recAt (sortByDate data) n).tavg.getD 0 -
                  (recAt (interpolateMissingTemperatures data) p).tavg.getD 0) *
                  (((i : ℚ) - (p : ℚ)) / ((n : ℚ) - (p : ℚ))))),
            is_interpolated := true }) ∧
    (∀ p, prevValidIndex (interpolateMissingTemperatures data) i = some p →
      nextValidIndex (sortByDate data) i = none →
      recAt (interpolateMissingTemperatures data) i =
        { recAt (sortByDate data) i with
            tavg := (recAt (interpolateMissingTemperatures data) p).tavg,
            is_interpolated := true }) ∧
    (∀ n, prevValidIndex (interpolateMissingTemperatures data) i = none →
      nextValidIndex (sortByDate data) i = some n →
      recAt (interpolateMissingTemperatures data) i =
        { recAt (sortByDate data) i with
            tavg := (recAt (sortByDate data) n).tavg,
            is_interpolated := true }) ∧
    (prevValidIndex (interpolateMissingTemperatures data) i = none →
      nextValidIndex (sortByDate data) i = none →
      (∀ a b, (recAt (sortByDate data) i).tmax = some a →
          (recAt (sortByDate data) i).tmin = some b →
        recAt (interpolateMissingTemperatures data) i =
          { recAt (sortByDate data) i with
              tavg := some (round1 ((a + b) / 2)), is_interpolated := true }) ∧
      (((recAt (sortByDate data) i).tmax = none ∨ (recAt (sortByDate data) i).tmin = none) →
        recAt (interpolateMissingTemperatures data) i = recAt (sortByDate data) i)) := by
  have hout : interpolateMissingTemperatures data =
      interpStateAt (sortByDate data) (sortByDate data).length := rfl
  have hle : i ≤ (sortByDate data).length := le_of_lt hi
  have hstep : recAt (interpolateMissingTemperatures data) i =
      recAt (interpStep (interpStateAt (sortByDate data) i) i) i := by
    rw [hout, ← interpStateAt_succ]
    exact recAt_interpStateAt_mono _ (i + 1) _ i (Nat.lt_succ_self i) hi
  have hcur : recAt (interpStateAt (sortByDate data) i) i = recAt (sortByDate data) i :=
    recAt_interpStateAt_of_le _ i i le_rfl
  have hilen : i < (interpStateAt (sortByDate data) i).length := by
    rw [interpStateAt_length]
    exact hi
  have hprev : prevValidIndex (interpStateAt (sortByDate data) i) i =
      prevValidIndex (interpolateMissingTemperatures data) i := by
    unfold prevValidIndex
    congr 1
    apply List.filter_congr
    intro j hj
    have hji : j < i := List.mem_range.mp hj
    rw [hout, recAt_interpStateAt_mono _ i _ j hji hle]
  have hnext : nextValidIndex (interpStateAt (sortByDate data) i) i =
      nextValidIndex (sortByDate data) i := by
    unfold nextValidIndex
    rw [interpStateAt_length]
    apply find?_congr_local
    intro j hj
    by_cases hij : i < j
    · rw [recAt_interpStateAt_of_le _ i j (le_of_lt hij)]
    · simp [hij]
  have hnotsome : (recAt (interpStateAt (sortByDate data) i) i).tavg.isSome = false := by
    rw [hcur, hnull]
    rfl
  refine ⟨?_, ?_, ?_, ?_⟩
  · intro p n hp hn
    have hpi : p < i := (prevValidIndex_some (interpolateMissingTemperatures data) i p hp).1
    have heqp : recAt (interpStateAt (sortByDate data) i) p =
        recAt (interpolateMissingTemperatures data) p := by
      rw [hout]
      exact (recAt_interpStateAt_mono _ i _ p hpi hle).symm
    have hin : i < n := (nextValidIndex_some _ _ _ hn).1
    have heqn : recAt (interpStateAt (sortByDate data) i) n = recAt (sortByDate data) n :=
      recAt_interpStateAt_of_le _ i n (le_of_lt hin)
    rw [hstep]
    simp only [interpStep, hnotsome, Bool.false_eq_true, if_false,
      hprev, hnext, hp, hn]
    rw [recAt_set_self _ _ _ hilen, hcur, heqp, heqn]
  · intro p hp hn
    have hpi : p < i := (prevValidIndex_some (interpolateMissingTemperatures data) i p hp).1
    have heqp : recAt (interpStateAt (sortByDate data) i) p =
        recAt (interpolateMissingTemperatures data) p := by
      rw [hout]
      exact (recAt_interpStateAt_mono _ i _ p hpi hle).symm
    rw [hstep]
    simp only [interpStep, hnotsome, Bool.false_eq_true, if_false,
      hprev, hnext, hp, hn]
    rw [recAt_set_self _ _ _ hilen, hcur, heqp]
  · intro n hp hn
    have hin : i < n := (nextValidIndex_some _ _ _ hn).1
    have heqn : recAt (interpStateAt (sortByDate data) i) n = recAt (sortByDate data) n :=
      recAt_interpStateAt_of_le _ i n (le_of_lt hin)
    rw [hstep]
    simp only [interpStep, hnotsome, Bool.false_eq_true, if_false,
      hprev, hnext, hp, hn]
    rw [recAt_set_self _ _ _ hilen, hcur, heqn]
  · intro hp hn
    constructor
    · intro a b ha hb
      rw [hstep]
      simp only [interpStep, hcur, hnull, Option.isSome_none, Bool.false_eq_true, if_false,
        hprev, hnext, hp, hn, ha, hb]
      rw [recAt_set_self _ _ _ hilen]
    · intro hab
      rw [hstep]
      rcases hab with ha | hb
      · rcases hmin : (recAt (sortByDate data) i).tmin with _ | b <;>
          simp only [interpStep, hcur, hnull, Option.isSome_none, Bool.false_eq_true, if_false,
            hprev, hnext, hp, hn, ha, hmin]
      · rcases hmax : (recAt (sortByDate data) i).tmax with _ | a <;>
          simp only [interpStep, hcur, hnull, Option.isSome_none, Bool.false_eq_true, if_false,
            hprev, hnext, hp, hn, hb, hmax]

/-- C10: interpolateMissingTemperatures returns the input records
reordered chronologically by date, altering only the tavg and
is_interpolated fields; the six other fields of every position are
unchanged, and any record whose tavg was already non-null is returned
entirely unchanged. -/
theorem c10_frame_effect (data : List ProcessedWeatherData) :
    (interpolateMissingTemperatures data).length = data.length ∧
    (sortByDate data).Perm data ∧
    (sortByDate data).Pairwise (fun a b => a.date ≤ b.date) ∧
    (∀ i, i < (sortByDate data).length →
      sameFrame (recAt (interpolateMissingTemperatures data) i)
        (recAt (sortByDate data) i) ∧
      ((recAt (sortByDate data) i).tavg.isSome = true →
        recAt (interpolateMissingTemperatures data) i = recAt (sortByDate data) i)) := by
  have hout : interpolateMissingTemperatures data =
      interpStateAt (sortByDate data) (sortByDate data).length := rfl
  refine ⟨?_, ?_, ?_, ?_⟩
  · rw [hout, interpStateAt_length]
    exact (stableSort_perm _ data).length_eq
  · exact stableSort_perm _ data
  · have h := stableSort_pairwise (fun a b : ProcessedWeatherData => decide (a.date ≤ b.date))
      (fun a b c hab hbc => by
        simp only [decide_eq_true_eq] at hab hbc ⊢
        omega)
      (fun a b => by
        simp only [decide_eq_true_eq]
        omega)
      data
    exact h.imp (fun hab => by simpa using hab)
  · intro i _
    constructor
    · rw [hout]
      exact interpStateAt_frame _ _ i
    · intro hsome
      rw [hout]
      exact interpStateAt_tavg_some _ _ i hsome

unseal Rat.add Rat.sub Rat.mul Rat.inv in
/-- C8 witness: in a three-record series whose middle record lacks tavg,
the fill interpolates between the neighbours at index positions 0 and
2. -/
theorem c8_gap_interpolation_witness :
    recAt (interpolateMissingTemperatures
      [⟨"X", 0, none, none, some 0, none, none, false⟩,
       ⟨"X", 1, some 3, some 1, none, none, none, false⟩,
       ⟨"X", 9, none, none, some 9, none, none, false⟩]) 1 =
      ⟨"X", 1, some 3, some 1, some (9/2), none, none, true⟩ := by
  have h := (c8_gap_interpolation
    [⟨"X", 0, none, none, some 0, none, none, false⟩,
     ⟨"X", 1, some 3, some 1, none, none, none, false⟩,
     ⟨"X", 9, none, none, some 9, none, none, false⟩] 1
    (by decide) (by decide)).1 0 2 (by decide) (by decide)
  rw [h]
  decide

unseal Rat.add Rat.sub Rat.mul Rat.inv in
/-- C8 counterexample: records dated day 0, day 1 and day 9 with the
middle tavg missing are filled with the index-position midpoint 4.5, not
with the calendar-position value 1 the claim prescribes. -/
theorem c8_gap_interpolation_counterexample :
    (recAt (interpolateMissingTemperatures
      [⟨"X", 0, none, none, some 0, none, none, false⟩,
       ⟨"X", 1, none, none, none, none, none, false⟩,
       ⟨"X", 9, none, none, some 9, none, none, false⟩]) 1).tavg = some (9/2) ∧
    round1 (specDateInterp 0 9 0 9 1) = 1 ∧
    (9/2 : ℚ) ≠ 1 := by
  refine ⟨by decide, by decide, by decide⟩

unseal Rat.add Rat.sub Rat.mul Rat.inv in
/-- C10 witness: on a concrete three-record series the output length
matches, the frame fields at index 1 are unchanged, and the record at
index 0 (whose tavg was present) is returned unchanged. -/
theorem c10_frame_effect_witness :
    (interpolateMissingTemperatures
      [⟨"X", 0, none, none, some 0, none, none, false⟩,
       ⟨"X", 1, some 3, some 1, none, none, none, false⟩,
       ⟨"X", 9, none, none, some 9, none, none, false⟩]).length =
      ([⟨"X", 0, none, none, some 0, none, none, false⟩,
        ⟨"X", 1, some 3, some 1, none, none, none, false⟩,
        ⟨"X", 9, none, none, some 9, none, none, false⟩] :
          List ProcessedWeatherData).length ∧
    sameFrame
      (recAt (interpolateMissingTemperatures
        [⟨"X", 0, none, none, some 0, none, none, false⟩,
         ⟨"X", 1, some 3, some 1, none, none, none, false⟩,
         ⟨"X", 9, none, none, some 9, none, none, false⟩]) 1)
      (recAt (sortByDate
        [⟨"X", 0, none, none, some 0, none, none, false⟩,
         ⟨"X", 1, some 3, some 1, none, none, none, false⟩,
         ⟨"X", 9, none, none, some 9, none, none, false⟩]) 1) ∧
    recAt (interpolateMissingTemperatures
      [⟨"X", 0, none, none, some 0, none, none, false⟩,
       ⟨"X", 1, some 3, some 1, none, none, none, false⟩,
       ⟨"X", 9, none, none, some 9, none, none, false⟩]) 0 =
      recAt (sortByDate
        [⟨"X", 0, none, none, some 0, none, none, false⟩,
         ⟨"X", 1, some 3, some 1, none, none, none, false⟩,
         ⟨"X", 9, none, none, some 9, none, none, false⟩]) 0 := by
  have h := c10_frame_effect
    [⟨"X", 0, none, none, some 0, none, none, false⟩,
     ⟨"X", 1, some 3, some 1, none, none, none, false⟩,
     ⟨"X", 9, none, none, some 9, none, none, false⟩]
  exact ⟨h.1, (h.2.2.2 1 (by decide)).1, (h.2.2.2 0 (by decide)).2 (by decide)⟩

end CanaryWeather
